import Mathlib

/-!
Shallow embedding of the naia-socket server core:
`src/server/src/impls/webrtc/server_socket.rs` (the `ServerSocket` select
loop, `get_sender`, and the `get_available_port` probe) and
`src/server/src/message_sender.rs` (`MessageSender::send`).

External collaborators (the `webrtc_unreliable` transport engine, the OS
`UdpSocket::bind`, and the `futures_channel` mpsc primitive) are modelled at
their boundary: the transport send and the bind check are oracle functions,
and the unbounded channel is a state (buffer, producer count, consumer
liveness) with the semantics the spec states for the outbound queue.
-/

/-- A datagram payload: an opaque byte sequence (`Vec<u8>` / `&[u8]` in the
source); bytes are modelled as naturals. -/
abbrev Bytes := List Nat

/-- A transport-level peer address (`std::net::SocketAddr`): IP plus port,
opaque to the core beyond equality. -/
structure SocketAddr where
  ip : Nat
  port : Nat
deriving DecidableEq, Repr

/-- An opaque `std::io::Error` value, as produced by the transport engine's
`recv`. -/
abbrev IoError := Nat

/-- An opaque `webrtc_unreliable::SendError` value, as produced by the
transport engine's `send`. -/
abbrev RtcSendError := Nat

/-- Modelled from the spec: the `Packet` type (`crate::Packet`, whose file is
not under src/): `{ address: PeerAddress, payload: byte sequence }`, immutable
once constructed, with no behavior beyond the `address()` and `payload()`
accessors used in server_socket.rs. -/
structure Packet where
  address : SocketAddr
  payload : Bytes
deriving DecidableEq, Repr

/-- Constructor `Packet::new(address, payload)` as used at
server_socket.rs:81. -/
def Packet.new (address : SocketAddr) (payload : Bytes) : Packet :=
  { address := address, payload := payload }

/-- Modelled from the spec: the error type `crate::error::NaiaServerSocketError`
(its file is not under src/); the two variants used by `ServerSocket::receive`
are `Wrapped(Box<dyn Error>)` for an inbound transport failure and
`SendError(SocketAddr)` carrying only the destination address of a failed
outbound send. -/
inductive NaiaServerSocketError where
  | wrapped (err : IoError)
  | sendError (address : SocketAddr)
deriving DecidableEq, Repr

/-- The `webrtc_unreliable::MessageType` argument of the transport send; the
core always passes `Binary`. -/
inductive MessageType where
  | text
  | binary
deriving DecidableEq, Repr

/-- The `webrtc_unreliable::MessageResult` yielded by the transport engine's
`recv`: the remote peer's address and the message bytes. -/
structure MessageResult where
  remote_addr : SocketAddr
  message : Bytes
deriving DecidableEq, Repr

/-- Modelled from the spec: the state of the one outbound
`futures_channel::mpsc::unbounded` queue (an external crate, specified in §3
of the spec): an unbounded FIFO buffer, the number of live producer handles
(`UnboundedSender` clones, including the socket's own `to_client_sender`
field), and whether the consumer end (`UnboundedReceiver`, owned by the
socket) is still alive. -/
structure ChannelState where
  buffer : List Packet
  producers : Nat
  consumerAlive : Bool
deriving DecidableEq, Repr

/-- Outcome of polling the consumer end (`to_client_receiver.next()`): a
buffered packet with the successor state, closure (buffer empty and every
producer dropped), or pending (buffer empty but a producer is still live). -/
inductive ChanNext where
  | msg (p : Packet) (rest : ChannelState)
  | closed
  | pending
deriving DecidableEq, Repr

/-- Modelled from the spec: `StreamExt::next` on the unbounded receiver —
yields buffered packets FIFO; once the buffer is empty it observes closure
exactly when all producer handles are dropped, and otherwise stays pending. -/
def ChannelState.next : ChannelState → ChanNext
  | ⟨[], 0, _⟩ => ChanNext.closed
  | ⟨[], _ + 1, _⟩ => ChanNext.pending
  | ⟨p :: ps, n, a⟩ => ChanNext.msg p ⟨ps, n, a⟩

/-- Modelled from the spec: the error returned by `unbounded_send` when the
consumer side has been destroyed; like `TrySendError` it carries the rejected
packet back to the caller. -/
inductive UnboundedSendError where
  | disconnected (p : Packet)
deriving DecidableEq, Repr

/-- Modelled from the spec: `UnboundedSender::unbounded_send` — enqueues at
the back of the FIFO buffer and succeeds exactly while the consumer side
still exists; after the consumer is dropped every enqueue attempt fails
permanently. -/
def ChannelState.unbounded_send (chan : ChannelState) (p : Packet) :
    ChannelState × Except UnboundedSendError Unit :=
  if chan.consumerAlive then
    ({ chan with buffer := chan.buffer ++ [p] }, Except.ok ())
  else
    (chan, Except.error (UnboundedSendError.disconnected p))

/-- An `mpsc::UnboundedSender<Packet>` handle, identified by the channel it
feeds (all clones of one sender feed the same channel). -/
structure UnboundedSender where
  chanId : Nat
deriving DecidableEq, Repr

/-- The `MessageSender` struct of message_sender.rs: wraps only a producer
handle to the outbound queue. -/
structure MessageSender where
  internal : UnboundedSender
deriving DecidableEq, Repr

/-- `MessageSender::new` from message_sender.rs. -/
def MessageSender.new (sender : UnboundedSender) : MessageSender :=
  { internal := sender }

/-- `MessageSender::send` from message_sender.rs: delegates to
`unbounded_send` on the channel its handle feeds, forwarding `Ok(content)`
and boxing the error otherwise (the boxed error is modelled as the error
itself). -/
def MessageSender.send (_self : MessageSender) (chan : ChannelState)
    (packet : Packet) : ChannelState × Except UnboundedSendError Unit :=
  match chan.unbounded_send packet with
  | (chan2, Except.ok content) => (chan2, Except.ok content)
  | (chan2, Except.error error) => (chan2, Except.error error)

/-- The `ServerSocket` struct: its retained `to_client_sender` producer
handle and the state of the single outbound channel (whose consumer end,
`to_client_receiver`, the socket owns). The transport engine `rtc_server` is
modelled as an oracle passed to `receiveLoop`. -/
structure ServerSocket where
  to_client_sender : UnboundedSender
  chan : ChannelState
deriving DecidableEq, Repr

/-- `ServerSocket::listen`: creates the unbounded channel and stores both
ends in the socket, so the channel starts with exactly one producer handle —
the socket's own `to_client_sender` field. -/
def ServerSocket.listen : ServerSocket :=
  { to_client_sender := { chanId := 0 },
    chan := { buffer := [], producers := 1, consumerAlive := true } }

/-- `ServerSocket::get_sender`: returns
`MessageSender::new(self.to_client_sender.clone())`; the clone adds one live
producer handle to the same channel. -/
def ServerSocket.get_sender (s : ServerSocket) : MessageSender × ServerSocket :=
  (MessageSender.new s.to_client_sender,
   { s with chan := { s.chan with producers := s.chan.producers + 1 } })

/-- Modelled from the spec: dropping the `ServerSocket` destroys the
consumer end of the queue and the socket's own retained producer handle. -/
def ServerSocket.drop (s : ServerSocket) : ChannelState :=
  { s.chan with consumerAlive := false, producers := s.chan.producers - 1 }

/-- Which branch of the `select!` in `ServerSocket::receive` became ready,
with the value the inbound branch resolved to; readiness of the outbound
branch resolves against the channel state itself. -/
inductive SelectReady where
  | fromClient (r : Except IoError MessageResult)
  | toClient
deriving Repr

/-- Result of one `receive()` call: a returned inbound packet, a returned
error, the `expect("to server message receiver closed")` panic on queue
closure, or still pending (the loop is suspended waiting; the schedule of
ready events ran out or claimed a branch that was not ready). -/
inductive ReceiveResult where
  | ok (p : Packet)
  | err (e : NaiaServerSocketError)
  | panicked
  | pending
deriving DecidableEq, Repr

/-- One call the loop makes to `rtc_server.send(message, message_type,
remote_addr)`, recorded with its exact arguments. -/
structure SendAttempt where
  message : Bytes
  mtype : MessageType
  remote_addr : SocketAddr
deriving DecidableEq, Repr

/-- The send attempt `receive()` makes for a dequeued outbound packet:
`rtc_server.send(packet.payload(), MessageType::Binary, &address)` with
`address = packet.address()`. -/
def Packet.toAttempt (p : Packet) : SendAttempt :=
  { message := p.payload, mtype := MessageType.binary, remote_addr := p.address }

/-- The loop body of `ServerSocket::receive`, driven by a schedule of ready
select branches and a transport-send oracle. Inbound `Ok(msg)` returns
`Packet::new(msg.remote_addr, msg.message.as_ref().to_vec())`; inbound `Err`
returns `Wrapped`; an outbound dequeue attempts the transport send and, on
failure, returns `SendError(address)`, while on success it loops. Returns
the result, the final channel state, and the list of transport send attempts
made, in order. -/
def receiveLoop (rtcSend : Bytes → MessageType → SocketAddr → Except RtcSendError Unit) :
    List SelectReady → ChannelState → ReceiveResult × ChannelState × List SendAttempt
  | [], chan => (ReceiveResult.pending, chan, [])
  | SelectReady.fromClient (Except.ok msg) :: _, chan =>
      (ReceiveResult.ok (Packet.new msg.remote_addr msg.message), chan, [])
  | SelectReady.fromClient (Except.error err) :: _, chan =>
      (ReceiveResult.err (NaiaServerSocketError.wrapped err), chan, [])
  | SelectReady.toClient :: rest, chan =>
      match ChannelState.next chan with
      | ChanNext.pending => (ReceiveResult.pending, chan, [])
      | ChanNext.closed => (ReceiveResult.panicked, chan, [])
      | ChanNext.msg packet chan2 =>
          match rtcSend packet.payload MessageType.binary packet.address with
          | Except.error _ =>
              (ReceiveResult.err (NaiaServerSocketError.sendError packet.address),
               chan2, [packet.toAttempt])
          | Except.ok _ =>
              match receiveLoop rtcSend rest chan2 with
              | (res, chanF, atts) => (res, chanF, packet.toAttempt :: atts)

/-- A transport-send oracle that always succeeds (a working adapter). -/
def sendAlwaysOk : Bytes → MessageType → SocketAddr → Except RtcSendError Unit :=
  fun _ _ _ => Except.ok ()

/-- A transport-send oracle that always fails (no session exists for any
address); the error value 7 is arbitrary. -/
def sendAlwaysFail : Bytes → MessageType → SocketAddr → Except RtcSendError Unit :=
  fun _ _ _ => Except.error 7

/-- A bind oracle under which exactly port 8003 can be bound. -/
def bindOnly8003 : String → Nat → Bool :=
  fun _ port => port == 8003

/-- `port_is_available(ip, port)` from server_socket.rs: true exactly when
`UdpSocket::bind((ip, port))` succeeds; the OS bind is the `bindOk`
oracle. -/
def port_is_available (bindOk : String → Nat → Bool) (ip : String) (port : Nat) : Bool :=
  bindOk ip port

/-- `get_available_port(ip)` from server_socket.rs:
`(8000..9000).find(|port| port_is_available(ip, *port))` — the first port of
the half-open range 8000..9000, scanned ascending, that can be bound. -/
def get_available_port (bindOk : String → Nat → Bool) (ip : String) : Option Nat :=
  (List.range' 8000 1000).find? (fun port => port_is_available bindOk ip port)

/-- Handles held by the application together with the live socket: the
application's count of live `MessageSender` handles and the socket itself. -/
structure World where
  socket : ServerSocket
  appHandles : Nat
deriving DecidableEq, Repr

/-- Operations the application can perform on a live socket: obtain a new
sender handle, drop one of its handles, or send a packet through one of its
handles. -/
inductive AppOp where
  | getSender
  | dropSender
  | sendPacket (p : Packet)
deriving DecidableEq, Repr

/-- The world right after `ServerSocket::listen`: the socket holds its own
producer handle and the application holds none. -/
def World.init : World :=
  { socket := ServerSocket.listen, appHandles := 0 }

/-- One application step. Dropping or sending through a handle requires the
application to hold one; dropping a handle removes one producer from the
channel, never the socket's own retained `to_client_sender`. -/
def World.step (w : World) : AppOp → World
  | AppOp.getSender =>
      { socket := (w.socket.get_sender).2, appHandles := w.appHandles + 1 }
  | AppOp.dropSender =>
      if w.appHandles = 0 then w
      else
        { socket := { w.socket with
            chan := { w.socket.chan with producers := w.socket.chan.producers - 1 } },
          appHandles := w.appHandles - 1 }
  | AppOp.sendPacket p =>
      if w.appHandles = 0 then w
      else
        { socket := { w.socket with
            chan := ((MessageSender.new w.socket.to_client_sender).send w.socket.chan p).1 },
          appHandles := w.appHandles }

/-- Running a sequence of application operations from the listen state. -/
def World.run (ops : List AppOp) : World :=
  ops.foldl World.step World.init

/-- Iterating `get_sender` n times, collecting the returned handles. -/
def getSenders : ServerSocket → Nat → List MessageSender × ServerSocket
  | s, 0 => ([], s)
  | s, k + 1 =>
      match s.get_sender with
      | (m, s2) =>
          match getSenders s2 k with
          | (ms, s3) => (m :: ms, s3)

/-! Equation lemmas for `receiveLoop`, one per shape of the next ready
event. -/

/-- With no ready event the loop stays suspended. -/
theorem receiveLoop_nil (f : Bytes → MessageType → SocketAddr → Except RtcSendError Unit)
    (chan : ChannelState) :
    receiveLoop f [] chan = (ReceiveResult.pending, chan, []) := rfl

/-- An inbound message returns `Packet::new(msg.remote_addr, msg.message)`
at once. -/
theorem receiveLoop_fromClient_ok (f : Bytes → MessageType → SocketAddr → Except RtcSendError Unit)
    (msg : MessageResult) (rest : List SelectReady) (chan : ChannelState) :
    receiveLoop f (SelectReady.fromClient (Except.ok msg) :: rest) chan
      = (ReceiveResult.ok (Packet.new msg.remote_addr msg.message), chan, []) := rfl

/-- An inbound transport error returns `Wrapped` at once. -/
theorem receiveLoop_fromClient_err (f : Bytes → MessageType → SocketAddr → Except RtcSendError Unit)
    (e : IoError) (rest : List SelectReady) (chan : ChannelState) :
    receiveLoop f (SelectReady.fromClient (Except.error e) :: rest) chan
      = (ReceiveResult.err (NaiaServerSocketError.wrapped e), chan, []) := rfl

/-- Queue closure (empty buffer, no producers) hits the
`expect("to server message receiver closed")` panic. -/
theorem receiveLoop_toClient_closed (f : Bytes → MessageType → SocketAddr → Except RtcSendError Unit)
    (rest : List SelectReady) (a : Bool) :
    receiveLoop f (SelectReady.toClient :: rest) ⟨[], 0, a⟩
      = (ReceiveResult.panicked, ⟨[], 0, a⟩, []) := rfl

/-- An empty buffer with a live producer is not actually ready: the loop is
still suspended. -/
theorem receiveLoop_toClient_pending (f : Bytes → MessageType → SocketAddr → Except RtcSendError Unit)
    (rest : List SelectReady) (n : Nat) (a : Bool) :
    receiveLoop f (SelectReady.toClient :: rest) ⟨[], n + 1, a⟩
      = (ReceiveResult.pending, ⟨[], n + 1, a⟩, []) := rfl

/-- A dequeued packet whose transport send fails returns
`SendError(address)`; the packet has been popped and was attempted once. -/
theorem receiveLoop_toClient_sendErr (f : Bytes → MessageType → SocketAddr → Except RtcSendError Unit)
    (rest : List SelectReady) (p : Packet) (l : List Packet) (n : Nat) (a : Bool)
    (e : RtcSendError)
    (h : f p.payload MessageType.binary p.address = Except.error e) :
    receiveLoop f (SelectReady.toClient :: rest) ⟨p :: l, n, a⟩
      = (ReceiveResult.err (NaiaServerSocketError.sendError p.address),
         ⟨l, n, a⟩, [p.toAttempt]) := by
  have hnext : ChannelState.next ⟨p :: l, n, a⟩ = ChanNext.msg p ⟨l, n, a⟩ := rfl
  simp [receiveLoop, hnext, h]

/-- A dequeued packet whose transport send succeeds is not returned: the
loop records the attempt and continues with the remaining schedule. -/
theorem receiveLoop_toClient_sendOk (f : Bytes → MessageType → SocketAddr → Except RtcSendError Unit)
    (rest : List SelectReady) (p : Packet) (l : List Packet) (n : Nat) (a : Bool)
    (u : Unit)
    (h : f p.payload MessageType.binary p.address = Except.ok u) :
    receiveLoop f (SelectReady.toClient :: rest) ⟨p :: l, n, a⟩
      = ((receiveLoop f rest ⟨l, n, a⟩).1, (receiveLoop f rest ⟨l, n, a⟩).2.1,
         p.toAttempt :: (receiveLoop f rest ⟨l, n, a⟩).2.2) := by
  have hnext : ChannelState.next ⟨p :: l, n, a⟩ = ChanNext.msg p ⟨l, n, a⟩ := rfl
  rcases hr : receiveLoop f rest ⟨l, n, a⟩ with ⟨res, cf, atts⟩
  simp [receiveLoop, hnext, h, hr]

/-! Structural lemmas about `receiveLoop`. -/

/-- FIFO drain: the send attempts of one `receive()` call are exactly the
attempts for a prefix of the buffered packets, in buffer order, and the final
channel state is the buffer with that prefix popped; producer count and
consumer liveness are untouched. -/
theorem receiveLoop_fifo (f : Bytes → MessageType → SocketAddr → Except RtcSendError Unit) :
    ∀ (sched : List SelectReady) (chan res chanF atts),
      receiveLoop f sched chan = (res, chanF, atts) →
      atts = (chan.buffer.take atts.length).map Packet.toAttempt ∧
      chanF.buffer = chan.buffer.drop atts.length ∧
      chanF.producers = chan.producers ∧
      chanF.consumerAlive = chan.consumerAlive := by
  intro sched
  induction sched with
  | nil =>
      intro chan res chanF atts h
      rw [receiveLoop_nil] at h
      cases h
      simp
  | cons ev rest ih =>
      intro chan res chanF atts h
      rcases chan with ⟨buf, n, al⟩
      cases ev with
      | fromClient r =>
          cases r with
          | ok msg =>
              rw [receiveLoop_fromClient_ok] at h
              cases h
              simp
          | error e =>
              rw [receiveLoop_fromClient_err] at h
              cases h
              simp
      | toClient =>
          cases buf with
          | nil =>
              cases n with
              | zero =>
                  rw [receiveLoop_toClient_closed] at h
                  cases h
                  simp
              | succ m =>
                  rw [receiveLoop_toClient_pending] at h
                  cases h
                  simp
          | cons p l =>
              rcases hs : f p.payload MessageType.binary p.address with e | u
              · rw [receiveLoop_toClient_sendErr f rest p l n al e hs] at h
                cases h
                simp
              · rw [receiveLoop_toClient_sendOk f rest p l n al u hs] at h
                rcases hr : receiveLoop f rest ⟨l, n, al⟩ with ⟨res2, cf2, atts2⟩
                rw [hr] at h
                cases h
                obtain ⟨h1, h2, h3, h4⟩ := ih ⟨l, n, al⟩ res2 cf2 atts2 hr
                refine ⟨?_, ?_, by simpa using h3, by simpa using h4⟩
                · simpa using h1
                · simpa using h2

/-- Origin of a returned packet: whenever `receive()` returns `Ok(pkt)`, the
packet came from an inbound transport message, constructed as
`Packet::new(msg.remote_addr, msg.message)` — never from the outbound
queue. -/
theorem receiveLoop_ok_origin (f : Bytes → MessageType → SocketAddr → Except RtcSendError Unit) :
    ∀ (sched : List SelectReady) (chan : ChannelState) (pkt : Packet),
      (receiveLoop f sched chan).1 = ReceiveResult.ok pkt →
      ∃ msg : MessageResult,
        SelectReady.fromClient (Except.ok msg) ∈ sched ∧
        pkt = Packet.new msg.remote_addr msg.message := by
  intro sched
  induction sched with
  | nil =>
      intro chan pkt h
      rw [receiveLoop_nil] at h
      cases h
  | cons ev rest ih =>
      intro chan pkt h
      rcases chan with ⟨buf, n, al⟩
      cases ev with
      | fromClient r =>
          cases r with
          | ok msg =>
              rw [receiveLoop_fromClient_ok] at h
              cases h
              exact ⟨msg, List.mem_cons_self _ _, rfl⟩
          | error e =>
              rw [receiveLoop_fromClient_err] at h
              cases h
      | toClient =>
          cases buf with
          | nil =>
              cases n with
              | zero =>
                  rw [receiveLoop_toClient_closed] at h
                  cases h
              | succ m =>
                  rw [receiveLoop_toClient_pending] at h
                  cases h
          | cons p l =>
              rcases hs : f p.payload MessageType.binary p.address with e | u
              · rw [receiveLoop_toClient_sendErr f rest p l n al e hs] at h
                cases h
              · rw [receiveLoop_toClient_sendOk f rest p l n al u hs] at h
                obtain ⟨msg, hmem, hpkt⟩ := ih ⟨l, n, al⟩ pkt h
                exact ⟨msg, List.mem_cons_of_mem _ hmem, hpkt⟩

/-- While at least one producer handle is live, the loop can never observe
queue closure, so the panic branch is unreachable. -/
theorem receiveLoop_no_panic (f : Bytes → MessageType → SocketAddr → Except RtcSendError Unit) :
    ∀ (sched : List SelectReady) (chan : ChannelState),
      chan.producers ≠ 0 →
      (receiveLoop f sched chan).1 ≠ ReceiveResult.panicked := by
  intro sched
  induction sched with
  | nil =>
      intro chan hp
      rw [receiveLoop_nil]
      intro h
      cases h
  | cons ev rest ih =>
      intro chan hp
      rcases chan with ⟨buf, n, al⟩
      cases ev with
      | fromClient r =>
          cases r with
          | ok msg =>
              rw [receiveLoop_fromClient_ok]
              intro h
              cases h
          | error e =>
              rw [receiveLoop_fromClient_err]
              intro h
              cases h
      | toClient =>
          cases buf with
          | nil =>
              cases n with
              | zero => exact absurd rfl hp
              | succ m =>
                  rw [receiveLoop_toClient_pending]
                  intro h
                  cases h
          | cons p l =>
              rcases hs : f p.payload MessageType.binary p.address with e | u
              · rw [receiveLoop_toClient_sendErr f rest p l n al e hs]
                intro h
                cases h
              · rw [receiveLoop_toClient_sendOk f rest p l n al u hs]
                exact ih ⟨l, n, al⟩ hp

/-- Draining a full buffer through a working adapter: with one ready
outbound event per buffered packet and every transport send succeeding, the
loop attempts every buffered packet in FIFO order, empties the buffer, and
ends up still waiting. -/
theorem receiveLoop_drain :
    ∀ (l : List Packet) (n : Nat) (a : Bool),
      receiveLoop sendAlwaysOk (List.replicate l.length SelectReady.toClient) ⟨l, n, a⟩
        = (ReceiveResult.pending, ⟨[], n, a⟩, l.map Packet.toAttempt) := by
  intro l
  induction l with
  | nil =>
      intro n a
      simp [receiveLoop_nil]
  | cons p l ih =>
      intro n a
      have hs : sendAlwaysOk p.payload MessageType.binary p.address = Except.ok () := rfl
      rw [List.length_cons, List.replicate_succ,
        receiveLoop_toClient_sendOk sendAlwaysOk _ p l n a () hs, ih n a]
      simp

/-- First-hit property of `List.find?` over an ascending `range'`: a found
element lies in the range, satisfies the predicate, and no smaller element of
the range does. -/
theorem find?_range'_first :
    ∀ (n s : Nat) (pred : Nat → Bool) (a : Nat),
      (List.range' s n).find? pred = some a →
      s ≤ a ∧ a < s + n ∧ pred a = true ∧
      ∀ q, s ≤ q → q < a → pred q = false := by
  intro n
  induction n with
  | zero =>
      intro s pred a h
      simp [List.range'] at h
  | succ m ih =>
      intro s pred a h
      rw [List.range'_succ] at h
      rcases hp : pred s with hf | ht
      · rw [List.find?_cons_of_neg _ (by simp [hp])] at h
        obtain ⟨h1, h2, h3, h4⟩ := ih (s + 1) pred a h
        refine ⟨by omega, by omega, h3, ?_⟩
        intro q hq1 hq2
        rcases Nat.eq_or_lt_of_le hq1 with rfl | hlt
        · exact hp
        · exact h4 q hlt hq2
      · rw [List.find?_cons_of_pos _ (by simp [hp])] at h
        cases h
        exact ⟨Nat.le_refl s, by omega, hp, fun q hq1 hq2 => absurd (Nat.lt_of_le_of_lt hq1 hq2) (Nat.lt_irrefl s)⟩

/-- Invariant of the application-operation model: the live producer count of
the socket's channel is always the application's handle count plus one — the
plus one being the socket's own retained `to_client_sender`. -/
theorem World_producers_invariant :
    ∀ (ops : List AppOp), (World.run ops).socket.chan.producers = (World.run ops).appHandles + 1 := by
  have send_producers : ∀ (m : MessageSender) (chan : ChannelState) (p : Packet),
      ((MessageSender.send m chan p).1).producers = chan.producers := by
    intro m chan p
    by_cases hc : chan.consumerAlive
    · simp [MessageSender.send, ChannelState.unbounded_send, hc]
    · simp [MessageSender.send, ChannelState.unbounded_send, hc]
  have step_inv : ∀ (w : World) (op : AppOp),
      w.socket.chan.producers = w.appHandles + 1 →
      (w.step op).socket.chan.producers = (w.step op).appHandles + 1 := by
    intro w op hw
    cases op with
    | getSender =>
        simp [World.step, ServerSocket.get_sender, hw]
    | dropSender =>
        rcases hz : w.appHandles with _ | k
        · simp [World.step, hz, hw]
        · rw [hz] at hw
          simp only [World.step, hz]
          simp
          omega
    | sendPacket p =>
        rcases hz : w.appHandles with _ | k
        · simp [World.step, hz, hw]
        · rw [hz] at hw
          simp only [World.step, hz]
          simp [send_producers]
          omega
  intro ops
  rw [World.run]
  induction ops using List.reverseRecOn with
  | nil => simp [World.init, ServerSocket.listen]
  | append_singleton ops op ih =>
      rw [List.foldl_append, List.foldl_cons, List.foldl_nil]
      exact step_inv _ op ih

/-- Every handle produced by iterating `get_sender` equals
`MessageSender::new` of the socket's own `to_client_sender`, and iterating
preserves that field. -/
theorem getSenders_all_same :
    ∀ (k : Nat) (s : ServerSocket),
      (getSenders s k).2.to_client_sender = s.to_client_sender ∧
      ∀ m ∈ (getSenders s k).1, m = MessageSender.new s.to_client_sender := by
  intro k
  induction k with
  | zero =>
      intro s
      exact ⟨rfl, by simp [getSenders]⟩
  | succ j ih =>
      intro s
      have hg : s.get_sender = (MessageSender.new s.to_client_sender,
          { s with chan := { s.chan with producers := s.chan.producers + 1 } }) := rfl
      obtain ⟨hpres, hall⟩ := ih { s with chan := { s.chan with producers := s.chan.producers + 1 } }
      constructor
      · simp [getSenders, hg]
        rcases hgs : getSenders { s with chan := { s.chan with producers := s.chan.producers + 1 } } j with ⟨ms, s3⟩
        simpa [hgs] using hpres
      · intro m hm
        simp [getSenders, hg] at hm
        rcases hgs : getSenders { s with chan := { s.chan with producers := s.chan.producers + 1 } } j with ⟨ms, s3⟩
        rw [hgs] at hm
        simp at hm
        rcases hm with rfl | hm
        · rfl
        · exact hall m (by rw [hgs]; exact hm)

/-! Claim theorems. -/

/-- Claim C1: when the next ready event is an outbound packet dequeued from
the outbound queue, `receive()` attempts the transport send for it; if the
send succeeds the event is not returned — the call records the attempt and
keeps waiting on the remaining events — and every `Ok` outcome of
`receive()` is an inbound transport packet, so the caller only ever observes
a received inbound packet or an error. -/
theorem claim_C1 (f : Bytes → MessageType → SocketAddr → Except RtcSendError Unit) :
    (∀ (rest : List SelectReady) (p : Packet) (l : List Packet) (n : Nat) (a : Bool) (u : Unit),
      f p.payload MessageType.binary p.address = Except.ok u →
      (receiveLoop f (SelectReady.toClient :: rest) ⟨p :: l, n, a⟩).1
          = (receiveLoop f rest ⟨l, n, a⟩).1 ∧
      (receiveLoop f (SelectReady.toClient :: rest) ⟨p :: l, n, a⟩).2.2
          = p.toAttempt :: (receiveLoop f rest ⟨l, n, a⟩).2.2) ∧
    (∀ (sched : List SelectReady) (chan : ChannelState) (pkt : Packet),
      (receiveLoop f sched chan).1 = ReceiveResult.ok pkt →
      ∃ msg : MessageResult,
        SelectReady.fromClient (Except.ok msg) ∈ sched ∧
        pkt = Packet.new msg.remote_addr msg.message) := by
  constructor
  · intro rest p l n a u h
    rw [receiveLoop_toClient_sendOk f rest p l n a u h]
    exact ⟨rfl, rfl⟩
  · exact receiveLoop_ok_origin f

/-- Claim C1 witness: a successfully sent outbound packet is not returned
(the call keeps waiting), and a concrete inbound message is returned as the
corresponding packet. -/
theorem claim_C1_witness :
    ((receiveLoop sendAlwaysOk [SelectReady.toClient] ⟨[Packet.new ⟨1, 2⟩ [3]], 1, true⟩).1
        = (receiveLoop sendAlwaysOk [] ⟨[], 1, true⟩).1 ∧
      (receiveLoop sendAlwaysOk [SelectReady.toClient] ⟨[Packet.new ⟨1, 2⟩ [3]], 1, true⟩).2.2
        = (Packet.new ⟨1, 2⟩ [3]).toAttempt
            :: (receiveLoop sendAlwaysOk [] ⟨[], 1, true⟩).2.2) ∧
    (∃ msg : MessageResult,
      SelectReady.fromClient (Except.ok msg)
          ∈ [SelectReady.fromClient (Except.ok (MessageResult.mk ⟨1, 2⟩ [3]))] ∧
      Packet.new ⟨1, 2⟩ [3] = Packet.new msg.remote_addr msg.message) :=
  ⟨(claim_C1 sendAlwaysOk).1 [] (Packet.new ⟨1, 2⟩ [3]) [] 1 true () rfl,
   (claim_C1 sendAlwaysOk).2 [SelectReady.fromClient (Except.ok (MessageResult.mk ⟨1, 2⟩ [3]))]
     ⟨[], 1, true⟩ (Packet.new ⟨1, 2⟩ [3]) rfl⟩

/-- Claim C2: a failed transport send surfaces exactly one
`SendError(address)` from that `receive()` call and leaves the rest of the
queue intact; a later `receive()` can still return an unrelated inbound
packet, and still attempts the next queued send. -/
theorem claim_C2 (f : Bytes → MessageType → SocketAddr → Except RtcSendError Unit)
    (p q : Packet) (l : List Packet) (n : Nat) (rest : List SelectReady)
    (m : MessageResult) (e : RtcSendError)
    (h : f p.payload MessageType.binary p.address = Except.error e) :
    receiveLoop f (SelectReady.toClient :: rest) ⟨p :: q :: l, n, true⟩
        = (ReceiveResult.err (NaiaServerSocketError.sendError p.address),
           ⟨q :: l, n, true⟩, [p.toAttempt]) ∧
    (receiveLoop f [SelectReady.fromClient (Except.ok m)] ⟨q :: l, n, true⟩).1
        = ReceiveResult.ok (Packet.new m.remote_addr m.message) ∧
    (receiveLoop sendAlwaysOk [SelectReady.toClient] ⟨q :: l, n, true⟩).2.2
        = [q.toAttempt] := by
  refine ⟨receiveLoop_toClient_sendErr f rest p (q :: l) n true e h, ?_, ?_⟩
  · rw [receiveLoop_fromClient_ok]
  · rw [receiveLoop_toClient_sendOk sendAlwaysOk [] q l n true () rfl, receiveLoop_nil]

/-- Claim C2 witness: concrete failed send followed by a successful inbound
receive and a successful subsequent queued send attempt. -/
theorem claim_C2_witness :
    receiveLoop sendAlwaysFail [SelectReady.toClient]
        ⟨[Packet.new ⟨1, 1⟩ [9], Packet.new ⟨2, 2⟩ [8]], 1, true⟩
        = (ReceiveResult.err (NaiaServerSocketError.sendError (Packet.new ⟨1, 1⟩ [9]).address),
           ⟨[Packet.new ⟨2, 2⟩ [8]], 1, true⟩, [(Packet.new ⟨1, 1⟩ [9]).toAttempt]) ∧
    (receiveLoop sendAlwaysFail
        [SelectReady.fromClient (Except.ok (MessageResult.mk ⟨3, 3⟩ [5]))]
        ⟨[Packet.new ⟨2, 2⟩ [8]], 1, true⟩).1
        = ReceiveResult.ok (Packet.new ⟨3, 3⟩ [5]) ∧
    (receiveLoop sendAlwaysOk [SelectReady.toClient] ⟨[Packet.new ⟨2, 2⟩ [8]], 1, true⟩).2.2
        = [(Packet.new ⟨2, 2⟩ [8]).toAttempt] :=
  claim_C2 sendAlwaysFail (Packet.new ⟨1, 1⟩ [9]) (Packet.new ⟨2, 2⟩ [8]) [] 1 []
    (MessageResult.mk ⟨3, 3⟩ [5]) 7 rfl

/-- Claim C3: `MessageSender::send` does not suspend (it is a total
function); it returns `Ok` exactly while the queue's consumer side still
exists, in which case it enqueues at the back of the queue, and after the
socket is dropped every handle's send returns an error rather than
succeeding silently. -/
theorem claim_C3 (m : MessageSender) (chan : ChannelState) (s : ServerSocket) (p : Packet) :
    ((MessageSender.send m chan p).2 = Except.ok () ↔ chan.consumerAlive = true) ∧
    (chan.consumerAlive = true →
      MessageSender.send m chan p
        = ({ chan with buffer := chan.buffer ++ [p] }, Except.ok ())) ∧
    MessageSender.send m (ServerSocket.drop s) p
      = (ServerSocket.drop s, Except.error (UnboundedSendError.disconnected p)) := by
  refine ⟨?_, ?_, ?_⟩
  · by_cases hc : chan.consumerAlive
    · simp [MessageSender.send, ChannelState.unbounded_send, hc]
    · simp [MessageSender.send, ChannelState.unbounded_send, hc]
  · intro hc
    simp [MessageSender.send, ChannelState.unbounded_send, hc]
  · simp [MessageSender.send, ChannelState.unbounded_send, ServerSocket.drop]

/-- Claim C3 witness: a concrete send succeeds and enqueues while the
consumer is alive, and fails after the socket created by `listen` is
dropped. -/
theorem claim_C3_witness :
    MessageSender.send (MessageSender.new ⟨0⟩) ⟨[], 1, true⟩ (Packet.new ⟨1, 2⟩ [3])
      = (⟨[Packet.new ⟨1, 2⟩ [3]], 1, true⟩, Except.ok ()) ∧
    MessageSender.send (MessageSender.new ⟨0⟩) (ServerSocket.drop ServerSocket.listen)
        (Packet.new ⟨1, 2⟩ [3])
      = (ServerSocket.drop ServerSocket.listen,
         Except.error (UnboundedSendError.disconnected (Packet.new ⟨1, 2⟩ [3]))) := by
  constructor
  · have h := (claim_C3 (MessageSender.new ⟨0⟩) ⟨[], 1, true⟩ ServerSocket.listen
      (Packet.new ⟨1, 2⟩ [3])).2.1 rfl
    simpa using h
  · exact (claim_C3 (MessageSender.new ⟨0⟩) ⟨[], 1, true⟩ ServerSocket.listen
      (Packet.new ⟨1, 2⟩ [3])).2.2

/-- Claim C4: if the outbound queue yields closure inside `receive()` (empty
buffer, all producers dropped), the implementation panics — the outcome is
the `expect` panic, never a recoverable error and never a packet. -/
theorem claim_C4 (f : Bytes → MessageType → SocketAddr → Except RtcSendError Unit)
    (rest : List SelectReady) (a : Bool) :
    receiveLoop f (SelectReady.toClient :: rest) ⟨[], 0, a⟩
        = (ReceiveResult.panicked, ⟨[], 0, a⟩, []) ∧
    (∀ e : NaiaServerSocketError,
      (receiveLoop f (SelectReady.toClient :: rest) ⟨[], 0, a⟩).1 ≠ ReceiveResult.err e) ∧
    (∀ p : Packet,
      (receiveLoop f (SelectReady.toClient :: rest) ⟨[], 0, a⟩).1 ≠ ReceiveResult.ok p) := by
  refine ⟨receiveLoop_toClient_closed f rest a, ?_, ?_⟩ <;>
    · intro x
      rw [receiveLoop_toClient_closed]
      intro h
      cases h

/-- Claim C4 witness: closure at a concrete state panics and is not an
error. -/
theorem claim_C4_witness :
    receiveLoop sendAlwaysOk [SelectReady.toClient] ⟨[], 0, true⟩
        = (ReceiveResult.panicked, ⟨[], 0, true⟩, []) ∧
    (receiveLoop sendAlwaysOk [SelectReady.toClient] ⟨[], 0, true⟩).1
        ≠ ReceiveResult.err (NaiaServerSocketError.wrapped 0) :=
  ⟨(claim_C4 sendAlwaysOk [] true).1,
   (claim_C4 sendAlwaysOk [] true).2.1 (NaiaServerSocketError.wrapped 0)⟩

/-- Claim C5: an inbound datagram is returned by `receive()` as a packet
whose address is the datagram's remote peer address and whose payload is
the datagram's exact byte sequence — no framing, compression, encryption or
other modification. -/
theorem claim_C5 (f : Bytes → MessageType → SocketAddr → Except RtcSendError Unit)
    (msg : MessageResult) (rest : List SelectReady) (chan : ChannelState) :
    receiveLoop f (SelectReady.fromClient (Except.ok msg) :: rest) chan
        = (ReceiveResult.ok (Packet.new msg.remote_addr msg.message), chan, []) ∧
    (Packet.new msg.remote_addr msg.message).address = msg.remote_addr ∧
    (Packet.new msg.remote_addr msg.message).payload = msg.message :=
  ⟨receiveLoop_fromClient_ok f msg rest chan, rfl, rfl⟩

/-- Claim C6: the queue enqueues at the back, and within a `receive()` call
the transport send attempts are exactly a prefix of the buffered outbound
packets in FIFO order — each queued packet is attempted at most once, never
reordered — while the remaining queue is that prefix popped and the
producer/consumer bookkeeping is untouched. -/
theorem claim_C6 (f : Bytes → MessageType → SocketAddr → Except RtcSendError Unit)
    (sched : List SelectReady) (chan : ChannelState) :
    (receiveLoop f sched chan).2.2
        = (chan.buffer.take (receiveLoop f sched chan).2.2.length).map Packet.toAttempt ∧
    (receiveLoop f sched chan).2.1.buffer
        = chan.buffer.drop (receiveLoop f sched chan).2.2.length ∧
    (receiveLoop f sched chan).2.1.producers = chan.producers ∧
    (receiveLoop f sched chan).2.1.consumerAlive = chan.consumerAlive ∧
    ∀ (b : List Packet) (n : Nat) (p : Packet),
      ((ChannelState.mk b n true).unbounded_send p).1.buffer = b ++ [p] := by
  rcases h : receiveLoop f sched chan with ⟨res, cf, atts⟩
  obtain ⟨h1, h2, h3, h4⟩ := receiveLoop_fifo f sched chan res cf atts h
  refine ⟨by simpa [h] using h1, by simpa [h] using h2, by simpa [h] using h3,
    by simpa [h] using h4, ?_⟩
  intro b n p
  simp [ChannelState.unbounded_send]

/-- Claim C7: every handle returned by `get_sender()` wraps the socket's one
`to_client_sender`, so all handles feed the same outbound queue; a packet
sent through such a handle lands at the back of the socket's queue, and
draining that queue through a working adapter attempts every queued packet —
including the one just sent. -/
theorem claim_C7 (s : ServerSocket) (k : Nat) (buf : List Packet) (n : Nat) (p : Packet) :
    (∀ m ∈ (getSenders s k).1, m = MessageSender.new s.to_client_sender) ∧
    ((MessageSender.new s.to_client_sender).send ⟨buf, n, true⟩ p).1.buffer = buf ++ [p] ∧
    (receiveLoop sendAlwaysOk (List.replicate (buf ++ [p]).length SelectReady.toClient)
        ((MessageSender.new s.to_client_sender).send ⟨buf, n, true⟩ p).1).2.2
        = (buf ++ [p]).map Packet.toAttempt ∧
    Packet.toAttempt p ∈ (buf ++ [p]).map Packet.toAttempt := by
  have hsend : ((MessageSender.new s.to_client_sender).send ⟨buf, n, true⟩ p).1
      = ⟨buf ++ [p], n, true⟩ := by
    simp [MessageSender.send, ChannelState.unbounded_send]
  refine ⟨(getSenders_all_same k s).2, by rw [hsend], ?_, by simp⟩
  rw [hsend, receiveLoop_drain]

/-- Claim C7 witness: both handles from two `get_sender()` calls on a fresh
socket are the socket's own sender handle, and a concretely sent packet is
attempted by the drain. -/
theorem claim_C7_witness :
    MessageSender.new ⟨0⟩ = MessageSender.new ServerSocket.listen.to_client_sender ∧
    (receiveLoop sendAlwaysOk
        (List.replicate ([] ++ [Packet.new ⟨1, 2⟩ [3]]).length SelectReady.toClient)
        ((MessageSender.new ServerSocket.listen.to_client_sender).send ⟨[], 1, true⟩
          (Packet.new ⟨1, 2⟩ [3])).1).2.2
        = ([] ++ [Packet.new ⟨1, 2⟩ [3]]).map Packet.toAttempt :=
  ⟨(claim_C7 ServerSocket.listen 2 [] 1 (Packet.new ⟨1, 2⟩ [3])).1
      (MessageSender.new ⟨0⟩) (by decide),
   (claim_C7 ServerSocket.listen 2 [] 1 (Packet.new ⟨1, 2⟩ [3])).2.2.1⟩

/-- Claim C8: the port probe scans the candidate ports 8000..9000 in
ascending order and returns the first bindable one — no lower bindable port
of the range is skipped — and returns `none` exactly when no port of the
range can be bound. -/
theorem claim_C8 (bindOk : String → Nat → Bool) (ip : String) :
    (∀ p : Nat, get_available_port bindOk ip = some p →
      8000 ≤ p ∧ p < 9000 ∧ port_is_available bindOk ip p = true ∧
      ∀ q, 8000 ≤ q → q < p → port_is_available bindOk ip q = false) ∧
    (get_available_port bindOk ip = none ↔
      ∀ p, 8000 ≤ p → p < 9000 → port_is_available bindOk ip p = false) := by
  constructor
  · intro p h
    obtain ⟨h1, h2, h3, h4⟩ :=
      find?_range'_first 1000 8000 (fun port => port_is_available bindOk ip port) p h
    exact ⟨h1, by omega, h3, h4⟩
  · rw [get_available_port, List.find?_eq_none]
    constructor
    · intro h p hp1 hp2
      have hmem : p ∈ List.range' 8000 1000 := by
        rw [List.mem_range'_1]
        omega
      simpa using h p hmem
    · intro h x hx
      rw [List.mem_range'_1] at hx
      simpa using h x hx.1 (by omega)

/-- Claim C8 witness: when exactly port 8003 is bindable, the probe returns
it, it lies in range, and the lower port 8000 was indeed not bindable. -/
theorem claim_C8_witness :
    8000 ≤ 8003 ∧ 8003 < 9000 ∧ port_is_available bindOnly8003 "" 8003 = true ∧
    port_is_available bindOnly8003 "" 8000 = false := by
  obtain ⟨h1, h2, h3, h4⟩ := (claim_C8 bindOnly8003 "").1 8003 (by decide)
  exact ⟨h1, h2, h3, h4 8000 (by decide) (by decide)⟩

/-- Claim C9: whatever the application does with the handles it obtained —
including dropping every one of them — the socket's channel always retains
the socket's own `to_client_sender` producer, so the queue never yields
closure to the consumer and the `receive()` panic is unreachable while the
socket exists. -/
theorem claim_C9 (ops : List AppOp)
    (f : Bytes → MessageType → SocketAddr → Except RtcSendError Unit)
    (sched : List SelectReady) :
    (World.run ops).socket.chan.producers = (World.run ops).appHandles + 1 ∧
    (receiveLoop f sched (World.run ops).socket.chan).1 ≠ ReceiveResult.panicked := by
  refine ⟨World_producers_invariant ops, ?_⟩
  exact receiveLoop_no_panic f sched _
    (by rw [World_producers_invariant ops]; exact Nat.succ_ne_zero _)

/-- Claim C9 witness: even after the application obtains a sender and drops
it again, a `receive()` poll of the outbound branch does not panic. -/
theorem claim_C9_witness :
    (receiveLoop sendAlwaysOk [SelectReady.toClient]
        (World.run [AppOp.getSender, AppOp.dropSender]).socket.chan).1
      ≠ ReceiveResult.panicked :=
  (claim_C9 [AppOp.getSender, AppOp.dropSender] sendAlwaysOk [SelectReady.toClient]).2

/-- Claim C10: when a transport send fails inside `receive()`, the backend
error value is discarded — the returned error is `SendError(address)`,
whatever the backend error was — and the failed packet has already been
popped from the queue and was attempted exactly once, so it is never
retried. -/
theorem claim_C10 (f : Bytes → MessageType → SocketAddr → Except RtcSendError Unit)
    (rest : List SelectReady) (p : Packet) (l : List Packet) (n : Nat) (a : Bool)
    (e : RtcSendError)
    (h : f p.payload MessageType.binary p.address = Except.error e) :
    receiveLoop f (SelectReady.toClient :: rest) ⟨p :: l, n, a⟩
      = (ReceiveResult.err (NaiaServerSocketError.sendError p.address),
         ⟨l, n, a⟩, [p.toAttempt]) :=
  receiveLoop_toClient_sendErr f rest p l n a e h

/-- Claim C10 witness: a concrete failed send returns `SendError` with only
the address, and the packet is gone from the queue. -/
theorem claim_C10_witness :
    receiveLoop sendAlwaysFail [SelectReady.toClient] ⟨[Packet.new ⟨1, 2⟩ [3]], 1, true⟩
      = (ReceiveResult.err (NaiaServerSocketError.sendError (Packet.new ⟨1, 2⟩ [3]).address),
         ⟨[], 1, true⟩, [(Packet.new ⟨1, 2⟩ [3]).toAttempt]) :=
  claim_C10 sendAlwaysFail [] (Packet.new ⟨1, 2⟩ [3]) [] 1 true 7 rfl
